import Mathlib

/-!
Verification of the GridTokenX ESP32 energy-meter firmware
(`src/iot-devices/esp32-energy-meter`).  The firmware ships two loop
variants, `main_complete.cpp` and `main.cpp` (the AMI variant), plus a
blockchain sync client (`blockchain_client.cpp`).  Floating-point
quantities are embedded as exact rationals; network and sensor
interactions are passed in explicitly (HTTP outcomes, random draws,
submit results), so every modelled function is a pure function of its
inputs.
-/

set_option autoImplicit false

namespace MainComplete

/-- Safety thresholds used by `checkSafetyLimits` in `main_complete.cpp`
(`VOLTAGE_SAFETY_MAX`, `VOLTAGE_SAFETY_MIN`, `CURRENT_SAFETY_MAX`,
`POWER_SAFETY_MAX`, `TEMPERATURE_SAFETY_MAX`; configuration macros, kept
as parameters). -/
structure SafetyLimits where
  voltage_max : ℚ
  voltage_min : ℚ
  current_max : ℚ
  power_max : ℚ
  temperature_max : ℚ

/-- The fields of the global `currentData` read by `checkSafetyLimits`
(`main_complete.cpp`, lines 543-593). -/
structure MeterData where
  voltage : ℚ
  current : ℚ
  power : ℚ
  temperature : ℚ

/-- The fields of the global `systemStatus` written by
`checkSafetyLimits`. -/
structure SystemStatus where
  safetyAlert : Bool
  errorCode : Nat

/-- The disjunction of the five threshold comparisons of
`checkSafetyLimits` (`main_complete.cpp`, lines 547-568): the local
`safetyViolation` flag ends up true iff one of them fires.  The
voltage-low branch is an `else if` of the voltage-high branch, which the
disjunction reflects (both cannot fire at once). -/
def safetyViolation (lim : SafetyLimits) (d : MeterData) : Bool :=
  (d.voltage > lim.voltage_max) || (d.voltage < lim.voltage_min) ||
  (d.current > lim.current_max) || (d.power > lim.power_max) ||
  (d.temperature > lim.temperature_max)

/-- `checkSafetyLimits` (`main_complete.cpp`, lines 543-593): one
evaluation cycle of the safety monitor.  On a violation it sets
`systemStatus.safetyAlert = true` and `errorCode = 1001` (and fires
LED/buzzer/report side effects, outside the state); otherwise it sets
`safetyAlert = false` and `errorCode = 0`. -/
def checkSafetyLimits (lim : SafetyLimits) (d : MeterData) (st : SystemStatus) :
    SystemStatus :=
  if safetyViolation lim d then
    { st with safetyAlert := true, errorCode := 1001 }
  else
    { st with safetyAlert := false, errorCode := 0 }

/-- Concrete safety limits for counterexamples (representative values of
the configuration macros). -/
def exampleLimits : SafetyLimits :=
  { voltage_max := 250, voltage_min := 200, current_max := 30,
    power_max := 6000, temperature_max := 80 }

/-- A measurement violating the hard voltage limit. -/
def overvoltData : MeterData :=
  { voltage := 260, current := 10, power := 2600, temperature := 25 }

/-- A measurement with every metric back inside the limits. -/
def cleanData : MeterData :=
  { voltage := 220, current := 10, power := 2200, temperature := 25 }

/-- Trading constants from `config_new.h` (lines 135-138). -/
def EXCESS_ENERGY_THRESHOLD : ℚ := 1

/-- `ENERGY_DEMAND_THRESHOLD` from `config_new.h` line 136 (0.5 kWh). -/
def ENERGY_DEMAND_THRESHOLD : ℚ := 0.5

/-- `MAX_TRADING_PRICE` from `config_new.h` line 137 (THB per kWh). -/
def MAX_TRADING_PRICE : ℕ := 6000

/-- `MIN_TRADING_PRICE` from `config_new.h` line 138 (THB per kWh). -/
def MIN_TRADING_PRICE : ℕ := 3000

/-- An energy order as filled in by `checkTradingConditions`
(`main_complete.cpp`, lines 897-903 and 925-931): a side tag
(`"SELL"`/`"BUY"` strings in the source), a quantity in kWh, an integer
price and a creation timestamp.  The `deviceId` field, a constant
string, is omitted. -/
structure EnergyOrder where
  side : String
  quantity : ℚ
  price : ℕ
  timestamp : ℕ

/-- The globals of `main_complete.cpp` read and written by
`checkTradingConditions`: the `systemStatus` flags, the current power
reading, `millis()` (`now`) and the daily trading counters. -/
structure TradeStatus where
  autoTradingEnabled : Bool
  safetyAlert : Bool
  power : ℚ
  now : ℕ
  lastTradeTime : ℕ
  dailyOrderCount : ℕ
  dailyEnergySold : ℚ
  dailyEnergyBought : ℚ
  dailyRevenue : ℚ

/-- `checkTradingConditions` (`main_complete.cpp`, lines 885-950).
`cooldown` is the `TRADING_COOLDOWN_MS` macro (not defined in the
available headers, kept as a parameter); `r` is the value returned by
`random(MAX_TRADING_PRICE - MIN_TRADING_PRICE)`; `createOk` is the
result of `blockchainClient.createEnergyOrder`.  Returns the updated
globals and the list of orders created (the order object is built and
submitted whether or not the submission succeeds; counters update only
on success).  Unsigned `millis() - lastTradeTime` is truncated
subtraction on ℕ, which agrees with the source whenever the clock has
not wrapped. -/
def checkTradingConditions (cooldown : ℕ) (r : ℕ) (createOk : Bool)
    (s : TradeStatus) : TradeStatus × List EnergyOrder :=
  if !s.autoTradingEnabled || s.safetyAlert then (s, [])
  else if s.now - s.lastTradeTime < cooldown then (s, [])
  else if s.power > EXCESS_ENERGY_THRESHOLD * 1000 then
    let q := s.power / 1000 - EXCESS_ENERGY_THRESHOLD
    let p := MIN_TRADING_PRICE + r
    let order : EnergyOrder := ⟨"SELL", q, p, s.now⟩
    if createOk then
      ({ s with dailyOrderCount := s.dailyOrderCount + 1,
                dailyEnergySold := s.dailyEnergySold + q,
                dailyRevenue := s.dailyRevenue + q * (p : ℚ),
                lastTradeTime := s.now }, [order])
    else (s, [order])
  else if s.power < ENERGY_DEMAND_THRESHOLD * 1000 then
    let q := ENERGY_DEMAND_THRESHOLD - s.power / 1000
    let p := MIN_TRADING_PRICE + r
    let order : EnergyOrder := ⟨"BUY", q, p, s.now⟩
    if createOk then
      ({ s with dailyOrderCount := s.dailyOrderCount + 1,
                dailyEnergyBought := s.dailyEnergyBought + q,
                dailyRevenue := s.dailyRevenue - q * (p : ℚ),
                lastTradeTime := s.now }, [order])
    else (s, [order])
  else (s, [])

/-- A trading state whose power reading (20000 W) triggers the sell
branch with a 19 kWh order: used to exhibit the absence of a daily cap. -/
def bigSurplusStatus : TradeStatus :=
  { autoTradingEnabled := true, safetyAlert := false, power := 20000,
    now := 1000, lastTradeTime := 0, dailyOrderCount := 0,
    dailyEnergySold := 0, dailyEnergyBought := 0, dailyRevenue := 0 }

end MainComplete

namespace Ami

/-- Order side tags of the `EnergyOrder` struct used by `main.cpp`. -/
inductive OrderType where
  | BUY_ORDER : OrderType
  | SELL_ORDER : OrderType
deriving DecidableEq, Repr

/-- The `EnergyOrder` fields filled in by `createAdvancedEnergyOrder`
(`main.cpp`, lines 801-815).  `device_id`, `renewable_source`,
`carbon_intensity`, `grid_location` and `power_quality_score` are copied
from constants/globals and omitted here. -/
structure EnergyOrder where
  side : OrderType
  amount : ℚ
  price : ℚ
  timestamp : ℕ
  priority : ℤ
deriving DecidableEq, Repr

/-- The globals of `main.cpp` read and written by the advanced trading
functions (lines 715-849, 1195-1242): trading flags, market data,
thresholds, daily energy totals and caps, order counters, and the
quality/environment globals consulted by `calculateOrderPriority`. -/
structure TradingState where
  auto_trading_enabled : Bool
  blockchain_synced : Bool
  safety_shutdown : Bool
  current_market_price : ℚ
  predicted_market_price : ℚ
  sell_threshold : ℚ
  buy_threshold : ℚ
  power : ℚ
  daily_energy_produced : ℚ
  daily_energy_consumed : ℚ
  daily_energy_sold : ℚ
  daily_energy_bought : ℚ
  max_daily_sale : ℚ
  max_daily_purchase : ℚ
  active_buy_orders : ℕ
  active_sell_orders : ℕ
  total_trades : ℕ
  total_trading_revenue : ℚ
  last_trade_time : ℕ
  now : ℕ
  power_quality_score : ℚ
  renewable_energy_mode : Bool
  peak_demand_period : Bool

/-- `calculateOrderPriority` (`main.cpp`, lines 1215-1242): a base
priority of 50 adjusted for price competitiveness, order size, power
quality, renewable mode and peak demand, clamped to [1, 100]. -/
def calculateOrderPriority (s : TradingState) (t : OrderType)
    (amount price : ℚ) : ℤ :=
  let p0 : ℤ := 50
  let p1 :=
    match t with
    | OrderType.BUY_ORDER =>
        if price > s.current_market_price * 1.1 then p0 + 20
        else if price < s.current_market_price * 0.9 then p0 - 20
        else p0
    | OrderType.SELL_ORDER =>
        if price < s.current_market_price * 0.9 then p0 + 20
        else if price > s.current_market_price * 1.1 then p0 - 20
        else p0
  let p2 := if amount > 5 then p1 + 10 else if amount < 1 then p1 - 10 else p1
  let p3 := if s.power_quality_score > 90 then p2 + 5 else p2
  let p4 := if s.renewable_energy_mode then p3 + 15 else p3
  let p5 :=
    if s.peak_demand_period ∧ t = OrderType.SELL_ORDER then p4 + 10 else p4
  max 1 (min 100 p5)

/-- `createAdvancedEnergyOrder` (`main.cpp`, lines 801-815). -/
def createAdvancedEnergyOrder (s : TradingState) (t : OrderType)
    (amount price : ℚ) : EnergyOrder :=
  { side := t, amount := amount, price := price, timestamp := s.now,
    priority := calculateOrderPriority s t amount price }

/-- `calculateOptimalBuyAmount` (`main.cpp`, lines 1195-1213): an
8-hour consumption projection minus currently available energy, limited
by the remaining daily purchase allowance and a 50 THB budget. -/
def calculateOptimalBuyAmount (s : TradingState) : ℚ :=
  let base_consumption := s.power / 1000
  let projected_need := base_consumption * 8
  let current_available := s.daily_energy_produced - s.daily_energy_consumed
  let optimal_amount := max 0 (projected_need - current_available)
  let optimal_amount := min optimal_amount
    (s.max_daily_purchase - s.daily_energy_bought)
  min optimal_amount (50 / s.current_market_price)

/-- `evaluateBuyOpportunities` (`main.cpp`, lines 736-765).  `submitOk`
is the result of `blockchain_client->submitEnergyOrder`; the order
object is built and submitted whenever the guards pass, counters update
only on success. -/
def evaluateBuyOpportunities (submitOk : Bool) (s : TradingState) :
    TradingState × List EnergyOrder :=
  if s.current_market_price ≤ s.buy_threshold ∧
      s.predicted_market_price > s.current_market_price * 1.05 then
    let buy_amount := calculateOptimalBuyAmount s
    if buy_amount > 0.1 ∧
        s.daily_energy_bought + buy_amount ≤ s.max_daily_purchase then
      let order := createAdvancedEnergyOrder s OrderType.BUY_ORDER buy_amount
        s.current_market_price
      if submitOk then
        ({ s with daily_energy_bought := s.daily_energy_bought + buy_amount,
                  active_buy_orders := s.active_buy_orders + 1,
                  total_trades := s.total_trades + 1,
                  last_trade_time := s.now }, [order])
      else (s, [order])
    else (s, [])
  else (s, [])

/-- `evaluateSellOpportunities` (`main.cpp`, lines 767-799): sell when
the market price reaches the sell threshold and more than 0.5 kWh of
surplus is available; the amount is 80% of the surplus capped by the
remaining daily sale allowance. -/
def evaluateSellOpportunities (submitOk : Bool) (s : TradingState) :
    TradingState × List EnergyOrder :=
  let available_energy := s.daily_energy_produced - s.daily_energy_consumed
  if s.current_market_price ≥ s.sell_threshold ∧ available_energy > 0.5 then
    let sell_amount := min (available_energy * 0.8)
      (s.max_daily_sale - s.daily_energy_sold)
    if sell_amount > 0.1 then
      let order := createAdvancedEnergyOrder s OrderType.SELL_ORDER sell_amount
        s.current_market_price
      if submitOk then
        ({ s with daily_energy_sold := s.daily_energy_sold + sell_amount,
                  active_sell_orders := s.active_sell_orders + 1,
                  total_trading_revenue := s.total_trading_revenue +
                    sell_amount * s.current_market_price,
                  total_trades := s.total_trades + 1,
                  last_trade_time := s.now }, [order])
      else (s, [order])
    else (s, [])
  else (s, [])

/-- `checkAdvancedTradingOpportunities` (`main.cpp`, lines 715-734):
gated only on `auto_trading_enabled` and `device_status.blockchain_synced`,
then evaluates buy and sell opportunities.  The other calls in its body
(`updateMarketForecast`, `optimizeExistingOrders`, `performRiskManagement`)
have no definitions in the sources and are not order-creation sites;
they are not modelled. -/
def checkAdvancedTradingOpportunities (buyOk sellOk : Bool)
    (s : TradingState) : TradingState × List EnergyOrder :=
  if !s.auto_trading_enabled || !s.blockchain_synced then (s, [])
  else
    let b := evaluateBuyOpportunities buyOk s
    let l := evaluateSellOpportunities sellOk b.1
    (l.1, b.2 ++ l.2)

/-- A trading state with the safety shutdown flag raised but a surplus
and a market price that satisfy every guard of the sell evaluation. -/
def shutdownSurplusState : TradingState :=
  { auto_trading_enabled := true, blockchain_synced := true,
    safety_shutdown := true, current_market_price := 5000,
    predicted_market_price := 0, sell_threshold := 4000,
    buy_threshold := 3000, power := 0, daily_energy_produced := 10,
    daily_energy_consumed := 2, daily_energy_sold := 0,
    daily_energy_bought := 0, max_daily_sale := 100,
    max_daily_purchase := 100, active_buy_orders := 0,
    active_sell_orders := 0, total_trades := 0,
    total_trading_revenue := 0, last_trade_time := 0, now := 0,
    power_quality_score := 100, renewable_energy_mode := false,
    peak_demand_period := false }

/-- The same surplus scenario with a market price of 10000 THB/kWh,
above `MAX_TRADING_PRICE`. -/
def highPriceState : TradingState :=
  { shutdownSurplusState with
    safety_shutdown := false,
    current_market_price := 10000 }

/-- The power/power-factor portion of `calculateAdvancedPowerMetrics`
(`main.cpp`, lines 605-615): instantaneous power is set to V·I, the
power factor to power / (V·I), then clamped to [0, 1].  The remainder of
the source function (energy accumulation from `millis()` deltas, the
randomised frequency estimate, trend bookkeeping) does not touch these
two fields. -/
def calculateAdvancedPowerMetricsPF (voltage current : ℚ) : ℚ × ℚ :=
  let power := voltage * current
  let pf0 := power / (voltage * current)
  let pf1 := if pf0 > 1 then 1 else pf0
  let pf2 := if pf1 < 0 then 0 else pf1
  (power, pf2)

/-- `calculatePowerQualityScore` (`main.cpp`, lines 670-698): a weighted
composite of voltage-deviation, frequency-deviation, harmonic and
stability scores.  Inputs are `current_measurement.voltage`,
`current_measurement.frequency` and the globals
`total_harmonic_distortion` and `voltage_stability`. -/
def calculatePowerQualityScore (voltage frequency thd stability : ℚ) : ℚ :=
  let voltage_deviation := |voltage - 230| / 230 * 100
  let voltage_score :=
    if voltage_deviation > 10 then (0 : ℚ) else 100 - voltage_deviation * 5
  let freq_deviation := |frequency - 50|
  let frequency_score :=
    if freq_deviation > 0.5 then (0 : ℚ) else 100 - freq_deviation * 100
  let harmonic_score :=
    if thd > 8 then (0 : ℚ) else max 0 (100 - thd * 12.5)
  let stability_score :=
    if stability > 5 then (0 : ℚ) else max 0 (100 - stability * 20)
  voltage_score * 0.4 + frequency_score * 0.3 +
    harmonic_score * 0.2 + stability_score * 0.1

end Ami

namespace GridTokenXClient

/-- The connection-state fields of class `GridTokenXClient`
(`blockchain_client.h`, lines 29-33).  `consecutive_errors` is a
`uint16_t` in the source; it never approaches 2^16 in the modelled
scenarios, so plain ℕ is used. -/
structure ClientState where
  initialized : Bool
  connected : Bool
  last_sync_time : ℕ
  consecutive_errors : ℕ
deriving DecidableEq, Repr

/-- `MAX_CONSECUTIVE_ERRORS` (`blockchain_client.h`, line 138). -/
def MAX_CONSECUTIVE_ERRORS : ℕ := 5

/-- `isConnected` (`blockchain_client.cpp`, lines 91-93). -/
def isConnected (s : ClientState) : Bool :=
  s.connected && s.initialized

/-- `handleApiError` (`blockchain_client.cpp`, lines 331-346):
increments `consecutive_errors`; once it reaches
`MAX_CONSECUTIVE_ERRORS` the client sets `connected = false` and
blocks in `delay(5000 * consecutive_errors)` before returning.  The
second component is the delay in milliseconds applied by this call. -/
def handleApiError (s : ClientState) : ClientState × ℕ :=
  let e := s.consecutive_errors + 1
  if MAX_CONSECUTIVE_ERRORS ≤ e then
    ({ s with consecutive_errors := e, connected := false }, 5000 * e)
  else
    ({ s with consecutive_errors := e }, 0)

/-- The observable outcome of one `makeHttpRequest` exchange
(`blockchain_client.cpp`, lines 256-329): `none` when the transport
layer fails (WiFi down or `http_code <= 0`), otherwise the HTTP status
code.  `makeHttpRequest` returns true exactly when the code is 2xx. -/
def httpRequestOk : Option ℕ → Bool
  | none => false
  | some code => decide (200 ≤ code) && decide (code < 300)

/-- `submitEnergyReading` (`blockchain_client.cpp`, lines 123-148):
no-op when not connected; on a failed request or a status other than
200/201 it calls `handleApiError`; on 200/201 it zeroes
`consecutive_errors` and stamps `last_sync_time`.  Result: updated
state, the boolean returned to the caller, and the backoff delay (ms)
applied inside the call. -/
def submitEnergyReading (s : ClientState) (httpResult : Option ℕ)
    (now : ℕ) : ClientState × Bool × ℕ :=
  if !isConnected s then (s, false, 0)
  else if !httpRequestOk httpResult then
    let r := handleApiError s
    (r.1, false, r.2)
  else
    match httpResult with
    | some code =>
        if code = 200 ∨ code = 201 then
          ({ s with consecutive_errors := 0, last_sync_time := now },
            true, 0)
        else
          let r := handleApiError s
          (r.1, false, r.2)
    | none => (s, false, 0)

/-- `submitEnergyOrder` (`blockchain_client.cpp`, lines 150-186): same
guard and error handling as `submitEnergyReading`, but its 200/201
success path only parses the order id and returns true — it does not
reset `consecutive_errors` and does not update `last_sync_time`. -/
def submitEnergyOrder (s : ClientState) (httpResult : Option ℕ) :
    ClientState × Bool × ℕ :=
  if !isConnected s then (s, false, 0)
  else if !httpRequestOk httpResult then
    let r := handleApiError s
    (r.1, false, r.2)
  else
    match httpResult with
    | some code =>
        if code = 200 ∨ code = 201 then (s, true, 0)
        else
          let r := handleApiError s
          (r.1, false, r.2)
    | none => (s, false, 0)

/-- A chain of `n` `submitEnergyReading` calls whose HTTP exchange fails
at the transport layer every time (each a NetworkError outcome); returns
the final state and the total backoff delay the client slept through. -/
def failedReadingRun : ℕ → ClientState → ClientState × ℕ
  | 0, s => (s, 0)
  | n + 1, s =>
      let r := submitEnergyReading s none 0
      let rest := failedReadingRun n r.1
      (rest.1, r.2.2 + rest.2)

end GridTokenXClient

namespace ApiResponseParser

/-- The JSON document consulted by `ApiResponseParser::parseEnergyPrice`
(`blockchain_client.cpp`, lines 352-364): only the `price` field
matters; `none` models a document without that key. -/
structure PriceJson where
  price : Option ℚ
deriving DecidableEq, Repr

/-- The JSON fields consulted by `ApiResponseParser::parseGridStatus`
(`blockchain_client.cpp`, lines 366-383); `none` models a missing key,
which ArduinoJson `as<T>()` silently converts to the default value. -/
structure GridJson where
  connected : Option Bool
  stable : Option Bool
  voltage : Option ℚ
  frequency : Option ℚ
  total_load : Option ℚ
  renewable_percentage : Option ℚ
  carbon_intensity : Option ℚ
  peak_demand : Option Bool
deriving DecidableEq, Repr

/-- The `GridStatus` fields written by `parseGridStatus`
(`energy_types.h`). -/
structure GridStatus where
  grid_connected : Bool
  grid_stable : Bool
  grid_voltage : ℚ
  grid_frequency : ℚ
  total_load : ℚ
  renewable_percentage : ℚ
  carbon_intensity : ℚ
  peak_demand_period : Bool
  last_update : ℕ
deriving DecidableEq, Repr

/-- `parseEnergyPrice` (`blockchain_client.cpp`, lines 352-364): a
deserialization failure (outer `none`) or a missing `price` key yields
failure; otherwise the price is returned.  Returning `none` models the
function returning false to its caller. -/
def parseEnergyPrice : Option PriceJson → Option ℚ
  | none => none
  | some doc =>
      match doc.price with
      | some p => some p
      | none => none

/-- `parseGridStatus` (`blockchain_client.cpp`, lines 366-383): a
deserialization failure yields failure, but any well-formed document is
accepted — every field is read with `as<T>()`, which substitutes
`false`/`0.0` when the key is missing; `last_update` is stamped with
`millis()` (`now`). -/
def parseGridStatus (json : Option GridJson) (now : ℕ) : Option GridStatus :=
  match json with
  | none => none
  | some doc =>
      some { grid_connected := doc.connected.getD false,
             grid_stable := doc.stable.getD false,
             grid_voltage := doc.voltage.getD 0,
             grid_frequency := doc.frequency.getD 0,
             total_load := doc.total_load.getD 0,
             renewable_percentage := doc.renewable_percentage.getD 0,
             carbon_intensity := doc.carbon_intensity.getD 0,
             peak_demand_period := doc.peak_demand.getD false,
             last_update := now }

/-- A syntactically valid JSON object with none of the expected grid
fields present (for example the empty object). -/
def emptyGridJson : GridJson :=
  { connected := none, stable := none, voltage := none, frequency := none,
    total_load := none, renewable_percentage := none,
    carbon_intensity := none, peak_demand := none }

end ApiResponseParser

namespace BlockchainClient

/-- The `EnergyPricing` struct (`energy_types_old.h`, lines 94-102).
Note the type carries no success/error indicator of any kind. -/
structure EnergyPricing where
  base_price_per_kwh : ℚ
  peak_multiplier : ℚ
  off_peak_multiplier : ℚ
  renewable_bonus : ℚ
  carbon_credit_value : ℚ
  tariff_structure : String
  valid_until_timestamp : ℕ
deriving DecidableEq, Repr

/-- The JSON fields consulted by `getCurrentEnergyPricing`
(`blockchain_client.cpp`, lines 793-801); `none` models a missing key,
which the ArduinoJson `|` operator replaces with the written default. -/
structure PricingJson where
  base_price_per_kwh : Option ℚ
  peak_multiplier : Option ℚ
  off_peak_multiplier : Option ℚ
  renewable_bonus : Option ℚ
  carbon_credit_value : Option ℚ
  tariff_structure : Option String
  valid_until_timestamp : Option ℕ
deriving DecidableEq, Repr

/-- `ENERGY_PRICE_DEFAULT` (`config_old.h`, line 49): default tokens per
kWh. -/
def ENERGY_PRICE_DEFAULT : ℚ := 3500

/-- `BlockchainClient::getCurrentEnergyPricing`
(`blockchain_client.cpp`, lines 778-819).  `response_code` is the HTTP
result (≤ 0 for transport failure); `body` is the parsed response
(`none` when deserialization fails).  On HTTP 200 each field is read
with the `|` default operator; on a malformed 200 body the
default-constructed struct is returned unmodified (`uninit`, whose
float fields are indeterminate in C++).  On any non-200 outcome the
function silently fills fixed built-in defaults and returns them — the
signature offers the caller no error signal. -/
def getCurrentEnergyPricing (response_code : ℤ) (body : Option PricingJson)
    (uninit : EnergyPricing) : EnergyPricing :=
  if response_code = 200 then
    match body with
    | some doc =>
        { base_price_per_kwh := doc.base_price_per_kwh.getD 3500,
          peak_multiplier := doc.peak_multiplier.getD 1.5,
          off_peak_multiplier := doc.off_peak_multiplier.getD 0.8,
          renewable_bonus := doc.renewable_bonus.getD 500,
          carbon_credit_value := doc.carbon_credit_value.getD 100,
          tariff_structure := doc.tariff_structure.getD "time_of_use",
          valid_until_timestamp := doc.valid_until_timestamp.getD 0 }
    | none => uninit
  else
    { base_price_per_kwh := ENERGY_PRICE_DEFAULT,
      peak_multiplier := 1.5,
      off_peak_multiplier := 0.8,
      renewable_bonus := 500,
      carbon_credit_value := 100,
      tariff_structure := "time_of_use",
      valid_until_timestamp := 0 }

/-- The record of fixed built-in defaults that the failure path of
`getCurrentEnergyPricing` fabricates. -/
def defaultPricing : EnergyPricing :=
  { base_price_per_kwh := ENERGY_PRICE_DEFAULT, peak_multiplier := 1.5,
    off_peak_multiplier := 0.8, renewable_bonus := 500,
    carbon_credit_value := 100, tariff_structure := "time_of_use",
    valid_until_timestamp := 0 }

/-- A syntactically valid pricing response with no fields present. -/
def emptyPricingJson : PricingJson :=
  { base_price_per_kwh := none, peak_multiplier := none,
    off_peak_multiplier := none, renewable_bonus := none,
    carbon_credit_value := none, tariff_structure := none,
    valid_until_timestamp := none }

end BlockchainClient

/-- Claim C1 counterexample: one hard-threshold violation sets the alert,
and the very next evaluation cycle with clean metrics clears it — the
monitor does transition from the alert state back to normal in a single
cycle, with no intermediate WARNING cycle. -/
theorem checkSafetyLimits_clears_in_one_cycle :
    (MainComplete.checkSafetyLimits MainComplete.exampleLimits
        MainComplete.overvoltData ⟨false, 0⟩).safetyAlert = true ∧
    (MainComplete.checkSafetyLimits MainComplete.exampleLimits
        MainComplete.cleanData
        (MainComplete.checkSafetyLimits MainComplete.exampleLimits
          MainComplete.overvoltData ⟨false, 0⟩)).safetyAlert = false := by
  constructor <;> decide

/-- Claim C1 (amended): the safety monitor keeps no history at all — after
every evaluation cycle the alert flag equals the violation predicate of
the current measurement alone, so a violation sets it and any single
clean cycle clears it immediately (there is no WARNING state and no
hysteresis). -/
theorem checkSafetyLimits_alert_eq_violation
    (lim : MainComplete.SafetyLimits) (d : MainComplete.MeterData)
    (st : MainComplete.SystemStatus) :
    (MainComplete.checkSafetyLimits lim d st).safetyAlert =
      MainComplete.safetyViolation lim d := by
  unfold MainComplete.checkSafetyLimits
  by_cases h : MainComplete.safetyViolation lim d = true
  · simp [h]
  · simp [h]

/-- Claim C2 counterexample: with the safety shutdown flag raised, the
AMI trading evaluation of `main.cpp` (which never consults
`safety_shutdown`) still creates a sell order. -/
theorem checkAdvancedTradingOpportunities_orders_despite_shutdown :
    Ami.shutdownSurplusState.safety_shutdown = true ∧
    (Ami.checkAdvancedTradingOpportunities true true
        Ami.shutdownSurplusState).2 ≠ [] := by
  refine ⟨rfl, ?_⟩
  norm_num [Ami.checkAdvancedTradingOpportunities, Ami.evaluateBuyOpportunities,
    Ami.evaluateSellOpportunities, Ami.calculateOptimalBuyAmount,
    Ami.createAdvancedEnergyOrder, Ami.shutdownSurplusState, min_def, max_def]

/-- Claim C2 (amended): in the `main_complete.cpp` variant the guard
holds — whenever `systemStatus.safetyAlert` is set,
`checkTradingConditions` creates no order and leaves every counter
untouched, for all inputs. -/
theorem checkTradingConditions_no_orders_on_safetyAlert
    (cooldown r : ℕ) (createOk : Bool) (s : MainComplete.TradeStatus)
    (h : s.safetyAlert = true) :
    MainComplete.checkTradingConditions cooldown r createOk s = (s, []) := by
  unfold MainComplete.checkTradingConditions
  simp [h]

/-- Witness for the amended C2 theorem at a concrete alerted state. -/
theorem checkTradingConditions_no_orders_on_safetyAlert_witness :
    MainComplete.checkTradingConditions 5000 0 true
        { MainComplete.bigSurplusStatus with safetyAlert := true } =
      ({ MainComplete.bigSurplusStatus with safetyAlert := true }, []) :=
  checkTradingConditions_no_orders_on_safetyAlert 5000 0 true _ rfl

/-- Claim C4 counterexample: a successful `submitEnergyOrder` call
(HTTP 200) reports success yet leaves `consecutive_errors` at 3 — it
does not reset the counter to 0. -/
theorem submitEnergyOrder_success_keeps_consecutive_errors :
    (GridTokenXClient.submitEnergyOrder ⟨true, true, 0, 3⟩ (some 200)).2.1
        = true ∧
    (GridTokenXClient.submitEnergyOrder
        ⟨true, true, 0, 3⟩ (some 200)).1.consecutive_errors = 3 := by
  constructor <;> decide

/-- Claim C6 counterexample: the `main_complete.cpp` trading step
enforces no daily cap — starting from a daily sold total of 0 (within a
cap of 10 kWh), one `checkTradingConditions` sell step raises
`dailyEnergySold` to 19, past the cap. -/
theorem checkTradingConditions_exceeds_daily_cap :
    MainComplete.bigSurplusStatus.dailyEnergySold ≤ 10 ∧
    (MainComplete.checkTradingConditions 0 0 true
        MainComplete.bigSurplusStatus).1.dailyEnergySold > 10 := by
  constructor
  · norm_num [MainComplete.bigSurplusStatus]
  · norm_num [MainComplete.checkTradingConditions, MainComplete.bigSurplusStatus,
      MainComplete.EXCESS_ENERGY_THRESHOLD, MainComplete.ENERGY_DEMAND_THRESHOLD,
      MainComplete.MIN_TRADING_PRICE]

/-- Claim C7 counterexample: `evaluateSellOpportunities` in `main.cpp`
prices its order at the raw market price — with a market price of 10000
THB/kWh it emits an order priced at 10000, above `MAX_TRADING_PRICE`. -/
theorem evaluateSellOpportunities_price_unbounded :
    ((Ami.evaluateSellOpportunities true Ami.highPriceState).2.map
        Ami.EnergyOrder.price) = [10000] ∧
    ((MainComplete.MAX_TRADING_PRICE : ℚ) < 10000) := by
  constructor
  · norm_num [Ami.evaluateSellOpportunities, Ami.createAdvancedEnergyOrder,
      Ami.highPriceState, Ami.shutdownSurplusState, min_def]
  · norm_num [MainComplete.MAX_TRADING_PRICE]

/-- Claim C8 counterexample: a syntactically valid grid-status response
with every expected field missing is parsed as a success, the missing
fields silently replaced by the defaults false/0. -/
theorem parseGridStatus_accepts_missing_fields :
    ApiResponseParser.parseGridStatus
        (some ApiResponseParser.emptyGridJson) 7 =
      some ⟨false, false, 0, 0, 0, 0, 0, false, 7⟩ := rfl

/-- Claim C8 (amended): parse faults never escape either parser
(malformed input yields failure in both), and `parseEnergyPrice` also
rejects a document without the price field, never substituting a
default; `parseGridStatus`, however, accepts any well-formed document
and silently fills missing fields with false/0. -/
theorem parse_boundary_behaviour (p : ℚ) (now : ℕ)
    (g : ApiResponseParser.GridJson) :
    ApiResponseParser.parseEnergyPrice none = none ∧
    ApiResponseParser.parseEnergyPrice (some ⟨none⟩) = none ∧
    ApiResponseParser.parseEnergyPrice (some ⟨some p⟩) = some p ∧
    ApiResponseParser.parseGridStatus none now = none ∧
    ApiResponseParser.parseGridStatus (some g) now =
      some ⟨g.connected.getD false, g.stable.getD false, g.voltage.getD 0,
            g.frequency.getD 0, g.total_load.getD 0,
            g.renewable_percentage.getD 0, g.carbon_intensity.getD 0,
            g.peak_demand.getD false, now⟩ :=
  ⟨rfl, rfl, rfl, rfl, rfl⟩

/-- Claim C9: `calculateAdvancedPowerMetrics` first sets power to V·I
and then the power factor to power / (V·I), so whenever V·I ≠ 0 the
stored, clamped power factor is exactly 1, independent of the load. -/
theorem power_factor_identity (v c : ℚ) (h : v * c ≠ 0) :
    Ami.calculateAdvancedPowerMetricsPF v c = (v * c, 1) := by
  simp only [Ami.calculateAdvancedPowerMetricsPF]
  rw [div_self h]
  norm_num

/-- Witness for C9 at 230 V and 10 A. -/
theorem power_factor_identity_witness :
    (230 : ℚ) * 10 ≠ 0 ∧
    Ami.calculateAdvancedPowerMetricsPF 230 10 = (2300, 1) :=
  ⟨by norm_num, by
    have h := power_factor_identity 230 10 (by norm_num)
    rw [h]; norm_num⟩

/-- Claim C10: whenever the pricing request fails or returns a non-200
status, `getCurrentEnergyPricing` returns the fixed built-in defaults
(base 3500 tokens/kWh, peak 1.5, off-peak 0.8, renewable bonus 500,
carbon credit 100) with no error signal — indeed the result is
indistinguishable from a successful 200 fetch of an empty document. -/
theorem getCurrentEnergyPricing_defaults_on_failure (code : ℤ)
    (body : Option BlockchainClient.PricingJson)
    (uninit : BlockchainClient.EnergyPricing) (h : code ≠ 200) :
    BlockchainClient.getCurrentEnergyPricing code body uninit =
      BlockchainClient.defaultPricing ∧
    BlockchainClient.getCurrentEnergyPricing code body uninit =
      BlockchainClient.getCurrentEnergyPricing 200
        (some BlockchainClient.emptyPricingJson) uninit := by
  have h1 : BlockchainClient.getCurrentEnergyPricing code body uninit =
      BlockchainClient.defaultPricing := by
    unfold BlockchainClient.getCurrentEnergyPricing
    rw [if_neg h]
    rfl
  exact ⟨h1, by rw [h1]; rfl⟩

/-- Witness for C10 at HTTP status 404. -/
theorem getCurrentEnergyPricing_defaults_on_failure_witness :
    BlockchainClient.getCurrentEnergyPricing 404 none
        BlockchainClient.defaultPricing = BlockchainClient.defaultPricing :=
  (getCurrentEnergyPricing_defaults_on_failure 404 none
    BlockchainClient.defaultPricing (by decide)).1

/-- Claim C5 counterexample: the measurement (207 V, 49.5 Hz, THD 4%,
perfectly stable) satisfies every hypothesis of the claim — voltage in
[207, 233], frequency in [49.5, 50.5], THD below 5% — yet the computed
power-quality score is below 75. -/
theorem powerQualityScore_boundary_below_75 :
    (207 : ℚ) ≤ 207 ∧ (207 : ℚ) ≤ 233 ∧ (49.5 : ℚ) ≤ 49.5 ∧
    (49.5 : ℚ) ≤ 50.5 ∧ (4 : ℚ) < 5 ∧
    Ami.calculatePowerQualityScore 207 49.5 4 0 < 75 := by
  refine ⟨le_refl _, by norm_num, le_refl _, by norm_num, by norm_num, ?_⟩
  have h1 : |(207 : ℚ) - 230| = 23 := by
    rw [abs_of_nonpos (by norm_num)]; norm_num
  have h2 : |(49.5 : ℚ) - 50| = 0.5 := by
    rw [abs_of_nonpos (by norm_num)]; norm_num
  simp only [Ami.calculatePowerQualityScore, h1, h2]
  norm_num [max_def]

/-- Claim C5 (amended): for voltage in [207, 233], frequency in
[49.5, 50.5] and THD below 5%, the computed power-quality score exceeds
42.5 (the guaranteed bound; 75 is not reached at the boundary, where
voltage and frequency scores drop to 50 and the stability input is
unconstrained). -/
theorem powerQualityScore_lower_bound (v f t st : ℚ)
    (hv1 : 207 ≤ v) (hv2 : v ≤ 233) (hf1 : 49.5 ≤ f) (hf2 : f ≤ 50.5)
    (ht : t < 5) :
    42.5 < Ami.calculatePowerQualityScore v f t st := by
  have hva : |v - 230| ≤ 23 := abs_le.mpr ⟨by linarith, by linarith⟩
  have hva0 : (0 : ℚ) ≤ |v - 230| := abs_nonneg _
  have hfa : |f - 50| ≤ 0.5 := abs_le.mpr ⟨by linarith, by linarith⟩
  have hfa0 : (0 : ℚ) ≤ |f - 50| := abs_nonneg _
  have h1 : ¬(|v - 230| / 230 * 100 > 10) := by rw [not_lt]; linarith
  have h2 : ¬(|f - 50| > 0.5) := by rw [not_lt]; linarith
  have h3 : ¬(t > 8) := by rw [not_lt]; linarith
  have hharm : (100 - t * 12.5) ≤ max 0 (100 - t * 12.5) := le_max_right _ _
  simp only [Ami.calculatePowerQualityScore]
  rw [if_neg h1, if_neg h2, if_neg h3]
  split_ifs with h4
  · linarith
  · have hstab : (0 : ℚ) ≤ max 0 (100 - st * 20) := le_max_left _ _
    linarith

/-- Witness for the amended C5 theorem at the nominal measurement. -/
theorem powerQualityScore_lower_bound_witness :
    (207 : ℚ) ≤ 230 ∧ (230 : ℚ) ≤ 233 ∧ (49.5 : ℚ) ≤ 50 ∧
    (50 : ℚ) ≤ 50.5 ∧ (0 : ℚ) < 5 ∧
    (42.5 : ℚ) < Ami.calculatePowerQualityScore 230 50 0 0 :=
  ⟨by norm_num, by norm_num, by norm_num, by norm_num, by norm_num,
   powerQualityScore_lower_bound 230 50 0 0 (by norm_num) (by norm_num)
     (by norm_num) (by norm_num) (by norm_num)⟩

/-- The buy-evaluation step keeps the daily purchase total within its
cap and does not touch the sell total or either cap (helper for the
amended C6 theorem). -/
theorem evaluateBuyOpportunities_caps (ok : Bool) (s : Ami.TradingState)
    (hb : s.daily_energy_bought ≤ s.max_daily_purchase) :
    ((Ami.evaluateBuyOpportunities ok s).1.daily_energy_bought ≤
      (Ami.evaluateBuyOpportunities ok s).1.max_daily_purchase) ∧
    (Ami.evaluateBuyOpportunities ok s).1.daily_energy_sold =
      s.daily_energy_sold ∧
    (Ami.evaluateBuyOpportunities ok s).1.max_daily_sale =
      s.max_daily_sale := by
  simp only [Ami.evaluateBuyOpportunities]
  split_ifs with h1 h2 h3
  · exact ⟨h2.2, rfl, rfl⟩
  · exact ⟨hb, rfl, rfl⟩
  · exact ⟨hb, rfl, rfl⟩
  · exact ⟨hb, rfl, rfl⟩

/-- The sell-evaluation step keeps the daily sale total within its cap
and does not touch the buy total or either cap (helper for the amended
C6 theorem). -/
theorem evaluateSellOpportunities_caps (ok : Bool) (s : Ami.TradingState)
    (hs : s.daily_energy_sold ≤ s.max_daily_sale) :
    ((Ami.evaluateSellOpportunities ok s).1.daily_energy_sold ≤
      (Ami.evaluateSellOpportunities ok s).1.max_daily_sale) ∧
    (Ami.evaluateSellOpportunities ok s).1.daily_energy_bought =
      s.daily_energy_bought ∧
    (Ami.evaluateSellOpportunities ok s).1.max_daily_purchase =
      s.max_daily_purchase := by
  simp only [Ami.evaluateSellOpportunities]
  split_ifs with h1 h2 h3
  · refine ⟨?_, rfl, rfl⟩
    show s.daily_energy_sold +
        min ((s.daily_energy_produced - s.daily_energy_consumed) * 0.8)
          (s.max_daily_sale - s.daily_energy_sold) ≤ s.max_daily_sale
    have := min_le_right
      ((s.daily_energy_produced - s.daily_energy_consumed) * 0.8)
      (s.max_daily_sale - s.daily_energy_sold)
    linarith
  · exact ⟨hs, rfl, rfl⟩
  · exact ⟨hs, rfl, rfl⟩
  · exact ⟨hs, rfl, rfl⟩

/-- Claim C6 (amended): in `main.cpp` every order-emitting step
preserves the daily bounds — after any `checkAdvancedTradingOpportunities`
evaluation the daily sold total (which already includes the amounts of
the pending sell orders, added at creation time) stays within
`max_daily_sale`, and the daily bought total within
`max_daily_purchase`.  The `main_complete.cpp` variant enforces no such
cap (see the counterexample). -/
theorem ami_trading_preserves_daily_caps (buyOk sellOk : Bool)
    (s : Ami.TradingState)
    (hs : s.daily_energy_sold ≤ s.max_daily_sale)
    (hb : s.daily_energy_bought ≤ s.max_daily_purchase) :
    ((Ami.checkAdvancedTradingOpportunities buyOk sellOk s).1.daily_energy_sold ≤
      (Ami.checkAdvancedTradingOpportunities buyOk sellOk s).1.max_daily_sale) ∧
    ((Ami.checkAdvancedTradingOpportunities buyOk sellOk s).1.daily_energy_bought ≤
      (Ami.checkAdvancedTradingOpportunities buyOk sellOk s).1.max_daily_purchase) := by
  unfold Ami.checkAdvancedTradingOpportunities
  split_ifs with h
  · exact ⟨hs, hb⟩
  · obtain ⟨b1, b2, b3⟩ := evaluateBuyOpportunities_caps buyOk s hb
    obtain ⟨s1, s2, s3⟩ := evaluateSellOpportunities_caps sellOk
      (Ami.evaluateBuyOpportunities buyOk s).1 (by rw [b2, b3]; exact hs)
    constructor
    · exact s1
    · show (Ami.evaluateSellOpportunities sellOk
            (Ami.evaluateBuyOpportunities buyOk s).1).1.daily_energy_bought ≤
          (Ami.evaluateSellOpportunities sellOk
            (Ami.evaluateBuyOpportunities buyOk s).1).1.max_daily_purchase
      rw [s2, s3]
      exact b1

/-- Witness for the amended C6 theorem at a concrete in-bounds state. -/
theorem ami_trading_preserves_daily_caps_witness :
    ((Ami.checkAdvancedTradingOpportunities true true
        Ami.shutdownSurplusState).1.daily_energy_sold ≤
      (Ami.checkAdvancedTradingOpportunities true true
        Ami.shutdownSurplusState).1.max_daily_sale) ∧
    ((Ami.checkAdvancedTradingOpportunities true true
        Ami.shutdownSurplusState).1.daily_energy_bought ≤
      (Ami.checkAdvancedTradingOpportunities true true
        Ami.shutdownSurplusState).1.max_daily_purchase) :=
  ami_trading_preserves_daily_caps true true Ami.shutdownSurplusState
    (by norm_num [Ami.shutdownSurplusState])
    (by norm_num [Ami.shutdownSurplusState])

/-- Claim C7 (amended): every order emitted by `checkTradingConditions`
in `main_complete.cpp` is priced within
[`MIN_TRADING_PRICE`, `MAX_TRADING_PRICE`] (the price is
`MIN_TRADING_PRICE + random(MAX_TRADING_PRICE - MIN_TRADING_PRICE)`);
the AMI variant of `main.cpp`, however, prices orders at the raw market
price with no clamping (see the counterexample). -/
theorem checkTradingConditions_price_in_range
    (cooldown r : ℕ) (createOk : Bool) (s : MainComplete.TradeStatus)
    (hr : r < MainComplete.MAX_TRADING_PRICE - MainComplete.MIN_TRADING_PRICE)
    (o : MainComplete.EnergyOrder)
    (ho : o ∈ (MainComplete.checkTradingConditions cooldown r createOk s).2) :
    MainComplete.MIN_TRADING_PRICE ≤ o.price ∧
      o.price ≤ MainComplete.MAX_TRADING_PRICE := by
  simp only [MainComplete.MAX_TRADING_PRICE, MainComplete.MIN_TRADING_PRICE]
    at hr ⊢
  simp only [MainComplete.checkTradingConditions] at ho
  split_ifs at ho <;>
    simp only [List.mem_singleton, List.not_mem_nil] at ho <;>
    subst ho <;>
    simp only [MainComplete.MIN_TRADING_PRICE] <;>
    omega

/-- Witness for the amended C7 theorem on the concrete sell order that
`checkTradingConditions` produces from `bigSurplusStatus` with a random
draw of 0. -/
theorem checkTradingConditions_price_in_range_witness :
    MainComplete.MIN_TRADING_PRICE ≤
        (⟨"SELL", 19, 3000, 1000⟩ : MainComplete.EnergyOrder).price ∧
      (⟨"SELL", 19, 3000, 1000⟩ : MainComplete.EnergyOrder).price ≤
        MainComplete.MAX_TRADING_PRICE :=
  checkTradingConditions_price_in_range 0 0 true MainComplete.bigSurplusStatus
    (by norm_num [MainComplete.MAX_TRADING_PRICE, MainComplete.MIN_TRADING_PRICE])
    ⟨"SELL", 19, 3000, 1000⟩
    (by norm_num [MainComplete.checkTradingConditions,
      MainComplete.bigSurplusStatus, MainComplete.EXCESS_ENERGY_THRESHOLD,
      MainComplete.ENERGY_DEMAND_THRESHOLD, MainComplete.MIN_TRADING_PRICE])

/-- Claim C4 (amended): on success (HTTP 200) `submitEnergyReading`
resets `consecutive_errors` to 0, but `submitEnergyOrder` reports
success while leaving the whole client state unchanged — it never resets
the counter — and no operation moves a Disconnected client back to
Connected: when `connected` is false both submit operations return the
state untouched (reconnection happens only through `begin`). -/
theorem success_resets_only_submitEnergyReading
    (s : GridTokenXClient.ClientState) (now : ℕ) (httpResult : Option ℕ) :
    (GridTokenXClient.submitEnergyReading
        { s with connected := true, initialized := true }
        (some 200) now).1.consecutive_errors = 0 ∧
    (GridTokenXClient.submitEnergyReading
        { s with connected := true, initialized := true }
        (some 200) now).2.1 = true ∧
    (GridTokenXClient.submitEnergyOrder
        { s with connected := true, initialized := true } (some 200)).1 =
      { s with connected := true, initialized := true } ∧
    (GridTokenXClient.submitEnergyOrder
        { s with connected := true, initialized := true } (some 200)).2.1 =
      true ∧
    (GridTokenXClient.submitEnergyReading
        { s with connected := false } httpResult now).1 =
      { s with connected := false } ∧
    (GridTokenXClient.submitEnergyOrder
        { s with connected := false } httpResult).1 =
      { s with connected := false } := by
  refine ⟨?_, ?_, ?_, ?_, ?_, ?_⟩ <;>
    simp [GridTokenXClient.submitEnergyReading,
      GridTokenXClient.submitEnergyOrder, GridTokenXClient.isConnected,
      GridTokenXClient.httpRequestOk]

/-- Claim C3: five consecutive NetworkError outcomes on
`submitEnergyReading` leave the client Disconnected (`connected` is
false) and make it sleep through a backoff of at least
`5000 × MAX_CONSECUTIVE_ERRORS` milliseconds before anything further
can be attempted. -/
theorem consecutive_failures_disconnect_and_backoff
    (s : GridTokenXClient.ClientState) (hc : s.connected = true)
    (hi : s.initialized = true) (h0 : s.consecutive_errors = 0) :
    (GridTokenXClient.failedReadingRun GridTokenXClient.MAX_CONSECUTIVE_ERRORS
        s).1.connected = false ∧
    5000 * GridTokenXClient.MAX_CONSECUTIVE_ERRORS ≤
      (GridTokenXClient.failedReadingRun GridTokenXClient.MAX_CONSECUTIVE_ERRORS
        s).2 := by
  have hs : s = ⟨true, true, s.last_sync_time, 0⟩ := by
    cases s
    simp_all
  rw [hs]
  simp [GridTokenXClient.failedReadingRun, GridTokenXClient.submitEnergyReading,
    GridTokenXClient.handleApiError, GridTokenXClient.isConnected,
    GridTokenXClient.httpRequestOk, GridTokenXClient.MAX_CONSECUTIVE_ERRORS]

/-- Witness for C3 at a concrete freshly connected client. -/
theorem consecutive_failures_disconnect_and_backoff_witness :
    (GridTokenXClient.failedReadingRun GridTokenXClient.MAX_CONSECUTIVE_ERRORS
        ⟨true, true, 0, 0⟩).1.connected = false ∧
    5000 * GridTokenXClient.MAX_CONSECUTIVE_ERRORS ≤
      (GridTokenXClient.failedReadingRun GridTokenXClient.MAX_CONSECUTIVE_ERRORS
        ⟨true, true, 0, 0⟩).2 :=
  consecutive_failures_disconnect_and_backoff ⟨true, true, 0, 0⟩ rfl rfl rfl
